import Mathlib

/-
  Shallow embedding of the two components of the repository:
    src/src/components/UserSearch.tsx   (paginated customer search view)
    src/src/components/Dashboard.tsx    (detail dashboard view)

  React `useState` state is modelled as explicit record-passing; each event
  handler becomes a function from state to state.  Network access (axios) and
  JSON.parse are external collaborators and appear as oracle parameters; every
  operation additionally returns the list of HTTP requests it issued, so that
  "no network call attempted" is expressible.  A value captured by a JavaScript
  closure at render time (the `page` used by `fetchUsers`, the `chatwootData`
  read inside the `setTimeout` callback of `fetchChatwootData`) is passed as an
  explicit snapshot argument, exactly as the source closes over it.
-/

/- ChatwootData shape (UserSearch.tsx lines 13-19, Dashboard.tsx lines 5-17):
   every field optional. -/
structure ChatwootContact where
  email : Option String
  name : Option String
deriving DecidableEq

structure ChatwootPayload where
  contact : Option ChatwootContact
  currentAgent : Option ChatwootContact
deriving DecidableEq

structure ChatwootData where
  event : Option String
  data : Option ChatwootPayload
deriving DecidableEq

/- A JavaScript value as it can arrive in `event.data` of a message event, or
   come back from JSON.parse.  `vnull` is the JS `null`; note that in
   JavaScript `typeof null === 'object'`. -/
inductive JsValue where
  | vnull
  | vundefined
  | vbool (b : Bool)
  | vnum (n : Int)
  | vstr (s : String)
  | vobj (o : ChatwootData)
deriving DecidableEq

/- JS truthiness, as used by `if (!chatwootData)` in Dashboard.tsx line 82. -/
def JsValue.truthy : JsValue → Bool
  | .vnull => false
  | .vundefined => false
  | .vbool b => b
  | .vnum n => n != 0
  | .vstr s => s != ""
  | .vobj _ => true

/- `typeof v === 'object'` (true for objects and for null). -/
def JsValue.typeofIsObject : JsValue → Bool
  | .vnull => true
  | .vobj _ => true
  | _ => false

/- The three localStorage settings read by both views; `getItem` returns
   string-or-null, and the guard `!wooCommerceUrl || ...` also treats the
   empty string as missing. -/
structure Creds where
  url : Option String
  key : Option String
  secret : Option String
deriving DecidableEq

def strTruthy : Option String → Bool
  | none => false
  | some s => s != ""

def Creds.ok (c : Creds) : Bool :=
  strTruthy c.url && strTruthy c.key && strTruthy c.secret

/- WooCommerceUser (UserSearch.tsx lines 5-11). -/
structure WooCommerceUser where
  id : Int
  email : String
  username : String
  first_name : String
  last_name : String
deriving DecidableEq

/- WooCommerceCustomer (Dashboard.tsx lines 19-24). -/
structure WooCommerceCustomer where
  id : Int
  email : String
  first_name : String
  last_name : String
deriving DecidableEq

/- WooCommerceOrder (Dashboard.tsx lines 26-32). -/
structure WooCommerceOrder where
  id : Int
  number : String
  status : String
  total : String
  date_created : String
deriving DecidableEq

/- An axios failure: either an HTTP error response (axios.isAxiosError(err)
   && err.response) or anything else thrown during the request/handling. -/
inductive ApiErr where
  | http (status : Nat) (statusText : String)
  | other
deriving DecidableEq

/- The exception caught by a component's try/catch: either the explicitly
   thrown configuration error or a failure of the API call. -/
inductive Thrown where
  | configMissing
  | api (e : ApiErr)
deriving DecidableEq

/- User-visible message strings, verbatim from the source. -/
def configMissingMsg : String :=
  "WooCommerce settings are not configured. Please set them in the WooCommerce Settings page."

def userNotFoundMsg (email : String) : String :=
  "No users found for email: " ++ email ++ ". Please check the email address and try again."

def userHttpMsg (status : Nat) (statusText : String) : String :=
  "Error fetching users: " ++ toString status ++ " - " ++ statusText ++
  ". Please check your WooCommerce settings and try again."

def userUnexpectedMsg : String :=
  "An unexpected error occurred while fetching users. Please try again later."

/- UserSearch.tsx lines 99-105: the catch arm maps the caught exception to a
   user-visible message; only an axios error carrying a response gets the
   status-specific message. -/
def userCatchMsg : Thrown → String
  | .api (.http status statusText) => userHttpMsg status statusText
  | _ => userUnexpectedMsg

def dashSearchFailedMsg : String :=
  "Failed to search WooCommerce data. Please check your settings and try again."

def dashTimeoutMsg : String :=
  "No response received from Chatwoot. Please try again."

def dashProcessFailMsg : String :=
  "Failed to process Chatwoot data. Please try again."

def userProcessFailMsg : String :=
  "Failed to process Chatwoot data. Please try searching manually."

/- ------------------------------------------------------------------ -/
/- UserSearch.tsx                                                     -/
/- ------------------------------------------------------------------ -/

/- The useState fields of the UserSearch component (lines 22-28). -/
structure UState where
  searchEmail : String
  users : List WooCommerceUser
  loading : Bool
  error : Option String
  page : Nat
  hasMore : Bool
  chatwootData : JsValue
deriving DecidableEq

/- Initial state: `useState(1)` for page, `useState(true)` for hasMore,
   `useState<ChatwootData | null>(null)` for chatwootData. -/
def initialUState : UState :=
  { searchEmail := "", users := [], loading := false, error := none,
    page := 1, hasMore := true, chatwootData := JsValue.vnull }

/- The GET /customers request issued by fetchUsers, with its params
   (lines 75-85). -/
structure SearchRequest where
  email : String
  per_page : Nat
  page : Nat
deriving DecidableEq

/- UserSearch.tsx lines 91-96: the updater passed to setUsers.  New users are
   filtered against the previously accumulated list only (not against earlier
   elements of the same page) and appended. -/
def mergeUsers (prevUsers newData : List WooCommerceUser) : List WooCommerceUser :=
  prevUsers ++ newData.filter (fun newUser =>
    ! prevUsers.any (fun existingUser => existingUser.id == newUser.id))

/- Result of one run of fetchUsers: the final component state, the HTTP
   requests that were issued, and the exception (if any) that reached the
   catch arm. -/
structure UFetchResult where
  state : UState
  requests : List SearchRequest
  thrown : Option Thrown
deriving DecidableEq

/- UserSearch.tsx lines 62-109 (`fetchUsers`).  `pageClosure` is the value of
   the `page` state variable captured by the closure at the render that
   created this fetchUsers — the request params use it, not the state the
   updater later sees.  `s0.users` plays the role of the `prevUsers` the
   setUsers updater receives when the response resolves. -/
def fetchUsers (creds : Creds) (api : SearchRequest → Except ApiErr (List WooCommerceUser))
    (email : String) (pageClosure : Nat) (s0 : UState) : UFetchResult :=
  let s := { s0 with loading := true, error := none }
  if ! creds.ok then
    { state := { s with error := some (userCatchMsg Thrown.configMissing), loading := false },
      requests := [], thrown := some Thrown.configMissing }
  else
    let req : SearchRequest := { email := email, per_page := 20, page := pageClosure }
    match api req with
    | Except.error e =>
      { state := { s with error := some (userCatchMsg (Thrown.api e)), loading := false },
        requests := [req], thrown := some (Thrown.api e) }
    | Except.ok data =>
      if data.length == 0 then
        { state := { s with error := some (userNotFoundMsg email), users := [], loading := false },
          requests := [req], thrown := none }
      else
        { state := { s with users := mergeUsers s.users data,
                            hasMore := data.length == 20, loading := false },
          requests := [req], thrown := none }

/- UserSearch.tsx lines 111-116 (`handleSearch`): clears users, resets page to
   1, then calls fetchUsers — which was created in the current render and so
   still closes over the pre-reset `page` value `s.page`. -/
def handleSearch (creds : Creds) (api : SearchRequest → Except ApiErr (List WooCommerceUser))
    (s : UState) : UFetchResult :=
  let pageClosure := s.page
  let s1 := { s with users := [], page := 1 }
  fetchUsers creds api s.searchEmail pageClosure s1

/- UserSearch.tsx lines 118-120 (`loadMore`): the handler body is only
   `setPage(prevPage => prevPage + 1)`; no fetch is performed and no effect
   hook watches `page`, so the list of requests issued is empty. -/
def loadMore (s : UState) : UState × List SearchRequest :=
  ({ s with page := s.page + 1 }, [])

/- UserSearch.tsx lines 44-60 (`handleChatwootMessage`): string payloads are
   JSON.parsed (`parse` returning none models a parse exception), object-typed
   payloads (including null) are accepted as-is, anything else throws.  The
   success path only stores the data; the catch arm only sets the error. -/
def handleUserMessage (parse : String → Option JsValue) (s : UState) (d : JsValue) : UState :=
  match d with
  | JsValue.vstr str =>
    match parse str with
    | some v => { s with chatwootData := v }
    | none => { s with error := some userProcessFailMsg }
  | dd =>
    if dd.typeofIsObject then { s with chatwootData := dd }
    else { s with error := some userProcessFailMsg }

/- First-arrival de-duplication by id: scan a stream left to right, keeping an
   element only if no element with its id has been kept before. -/
def dedupAppend (acc : List WooCommerceUser) : List WooCommerceUser → List WooCommerceUser
  | [] => acc
  | u :: us =>
    if acc.any (fun e => e.id == u.id) then dedupAppend acc us
    else dedupAppend (acc ++ [u]) us

/- ------------------------------------------------------------------ -/
/- Dashboard.tsx                                                      -/
/- ------------------------------------------------------------------ -/

/- The useState fields of the Dashboard component (lines 35-40). -/
structure DState where
  chatwootData : JsValue
  error : Option String
  isLoading : Bool
  customer : Option WooCommerceCustomer
  orders : List WooCommerceOrder
  searchError : Option String
deriving DecidableEq

def initialDState : DState :=
  { chatwootData := JsValue.vnull, error := none, isLoading := false,
    customer := none, orders := [], searchError := none }

/- Dashboard.tsx lines 55-74 (`handleChatwootMessage`): same shape dispatch as
   the UserSearch handler, but the success path also clears the error and the
   loading flag. -/
def handleDashMessage (parse : String → Option JsValue) (s : DState) (d : JsValue) : DState :=
  match d with
  | JsValue.vstr str =>
    match parse str with
    | some v => { s with chatwootData := v, error := none, isLoading := false }
    | none => { s with error := some dashProcessFailMsg, isLoading := false }
  | dd =>
    if dd.typeofIsObject then { s with chatwootData := dd, error := none, isLoading := false }
    else { s with error := some dashProcessFailMsg, isLoading := false }

/- Dashboard.tsx lines 76-92 (`fetchChatwootData`): posts the fetch-info
   message, sets loading, and schedules a 5-second timeout whose callback
   closes over the `chatwootData` value of the render that created the
   handler.  Returns the new state together with that captured snapshot. -/
def fetchChatwootData (s : DState) : DState × JsValue :=
  ({ s with isLoading := true, error := none }, s.chatwootData)

/- The body of the setTimeout callback (Dashboard.tsx lines 81-86), fired on
   the state current at the deadline but testing the captured snapshot. -/
def chatwootTimeoutFire (snapshot : JsValue) (s : DState) : DState :=
  if ! snapshot.truthy then { s with error := some dashTimeoutMsg, isLoading := false }
  else s

/- The two kinds of request issued by searchWooCommerceData. -/
inductive DashRequest where
  | customers (email : String)
  | orders (customerId : Int)
deriving DecidableEq

structure DashSearchResult where
  state : DState
  requests : List DashRequest
  thrown : Option Thrown
deriving DecidableEq

/- Dashboard.tsx lines 94-135 (`searchWooCommerceData`).  Note that
   `setCustomer(customerResponse.data[0])` runs before the orders request, so
   on an orders failure the customer field is already updated while the orders
   field keeps its previous value; the catch arm sets the single searchError
   message for every kind of failure. -/
def searchWooCommerceData (creds : Creds)
    (apiCustomers : String → Except ApiErr (List WooCommerceCustomer))
    (apiOrders : Int → Except ApiErr (List WooCommerceOrder))
    (email : String) (s0 : DState) : DashSearchResult :=
  let s := { s0 with searchError := none }
  if ! creds.ok then
    { state := { s with searchError := some dashSearchFailedMsg },
      requests := [], thrown := some Thrown.configMissing }
  else
    match apiCustomers email with
    | Except.error e =>
      { state := { s with searchError := some dashSearchFailedMsg },
        requests := [DashRequest.customers email], thrown := some (Thrown.api e) }
    | Except.ok customers =>
      match customers with
      | [] =>
        { state := { s with customer := none, orders := [] },
          requests := [DashRequest.customers email], thrown := none }
      | c :: _ =>
        let s1 := { s with customer := some c }
        match apiOrders c.id with
        | Except.error e =>
          { state := { s1 with searchError := some dashSearchFailedMsg },
            requests := [DashRequest.customers email, DashRequest.orders c.id],
            thrown := some (Thrown.api e) }
        | Except.ok os =>
          { state := { s1 with orders := os },
            requests := [DashRequest.customers email, DashRequest.orders c.id],
            thrown := none }

/- ------------------------------------------------------------------ -/
/- Concrete fixtures used by counterexamples and witnesses            -/
/- ------------------------------------------------------------------ -/

def credsAll : Creds :=
  { url := some "https://shop.example.com", key := some "ck_test", secret := some "cs_test" }

def credsNoUrl : Creds :=
  { url := none, key := some "ck_test", secret := some "cs_test" }

def mkUser (i : Int) : WooCommerceUser :=
  { id := i, email := "u@example.com", username := "u", first_name := "U", last_name := "Ser" }

def twentyUsers : List WooCommerceUser :=
  (List.range 20).map (fun i => mkUser (Int.ofNat i))

/- A populated search state: page 1 returned a full page of 20 customers. -/
def populated20 : UState :=
  { searchEmail := "u@example.com", users := twentyUsers, loading := false, error := none,
    page := 1, hasMore := true, chatwootData := JsValue.vnull }

def apiEmpty : SearchRequest → Except ApiErr (List WooCommerceUser) :=
  fun _ => Except.ok []

def apiOneUser : SearchRequest → Except ApiErr (List WooCommerceUser) :=
  fun _ => Except.ok [mkUser 100]

def apiFail404 : SearchRequest → Except ApiErr (List WooCommerceUser) :=
  fun _ => Except.error (ApiErr.http 404 "Not Found")

def ctxObj : ChatwootData :=
  { event := some "appContext",
    data := some { contact := some { email := some "a@b.com", name := some "Alice" },
                   currentAgent := none } }

/- A parse oracle standing in for JSON.parse on the fixture strings. -/
def jsonCtxString : String :=
  "\x7b\"event\":\"appContext\",\"data\":\x7b\"contact\":\x7b\"email\":\"a@b.com\",\"name\":\"Alice\"\x7d\x7d\x7d"

def parseFixture : String → Option JsValue := fun s =>
  if s = jsonCtxString then some (JsValue.vobj ctxObj)
  else if s = "null" then some JsValue.vnull
  else none


/- ------------------------------------------------------------------ -/
/- Claims                                                             -/
/- ------------------------------------------------------------------ -/

/-- C1 counterexample: from the initial state (hasMore = true), a fetch whose
page comes back with length 0 (≠ 20) leaves hasMore equal to true, because the
empty-page branch of fetchUsers never calls setHasMore; the claim as stated
requires hasMore = false after that fetch. -/
theorem c1_counterexample :
    (fetchUsers credsAll apiEmpty "a@b.c" 1 initialUState).state.hasMore = true ∧
    apiEmpty { email := "a@b.c", per_page := 20, page := 1 } = Except.ok [] ∧
    ([] : List WooCommerceUser).length ≠ 20 := by
  refine ⟨rfl, rfl, by decide⟩

/-- C1 (amended): after a successful fetch returning a non-empty page, hasMore
is true iff the page's length equals 20; a fetch returning an empty page takes
the not-found branch and leaves hasMore unchanged. -/
theorem c1_hasMore_amended (creds : Creds)
    (api : SearchRequest → Except ApiErr (List WooCommerceUser))
    (email : String) (pageClosure : Nat) (s : UState) (data : List WooCommerceUser)
    (hcreds : creds.ok = true)
    (hapi : api { email := email, per_page := 20, page := pageClosure } = Except.ok data) :
    (data ≠ [] →
      ((fetchUsers creds api email pageClosure s).state.hasMore = true ↔ data.length = 20)) ∧
    (data = [] →
      (fetchUsers creds api email pageClosure s).state.hasMore = s.hasMore) := by
  constructor
  · intro hne
    have hlen : (data.length == 0) = false := by
      cases data with
      | nil => exact absurd rfl hne
      | cons a l => simp
    simp [fetchUsers, hcreds, hapi, hlen]
  · intro he
    subst he
    simp [fetchUsers, hcreds, hapi]

/-- C1 witness: concrete instance of the amended theorem — credentials present,
the API returns a single customer (page length 1 ≠ 20), and hasMore is not
true after the fetch. -/
theorem c1_hasMore_amended_witness :
    ((fetchUsers credsAll apiOneUser "a@b.c" 1 initialUState).state.hasMore = true ↔
      ([mkUser 100] : List WooCommerceUser).length = 20) :=
  (c1_hasMore_amended credsAll apiOneUser "a@b.c" 1 initialUState [mkUser 100]
    (by decide) rfl).1 (by decide)

/-- C2: evaluating the code at the failing input.  From a populated state
(page 1 returned 20 customers), invoking loadMore only increments the page
counter from 1 to 2; it issues no HTTP request and the accumulated result
count stays 20 (the claim requires a page-2 fetch whose results are merged,
giving 24 results). -/
theorem c2_loadMore_issues_no_fetch :
    loadMore populated20 = ({ populated20 with page := 2 }, []) ∧
    (loadMore populated20).1.users.length = 20 := by
  refine ⟨rfl, rfl⟩

/-- C4: evaluating the code at the failing input.  With the page counter at 3
(left over from previous loadMore clicks), submitting a new search does clear
the accumulated results and reset the page state to 1, but the fetch it issues
carries page 3 — the stale closure value — not page 1 as the claim requires. -/
theorem c4_search_requests_stale_page :
    (handleSearch credsAll apiEmpty
        { searchEmail := "new@q.r", users := twentyUsers, loading := false, error := none,
          page := 3, hasMore := true, chatwootData := JsValue.vnull }).requests =
      [{ email := "new@q.r", per_page := 20, page := 3 }] ∧
    (handleSearch credsAll apiEmpty
        { searchEmail := "new@q.r", users := twentyUsers, loading := false, error := none,
          page := 3, hasMore := true, chatwootData := JsValue.vnull }).state.page = 1 ∧
    (handleSearch credsAll apiEmpty
        { searchEmail := "new@q.r", users := twentyUsers, loading := false, error := none,
          page := 3, hasMore := true, chatwootData := JsValue.vnull }).state.users = [] := by
  refine ⟨rfl, rfl, rfl⟩

/-- C5: evaluating the code at the failing input.  requestContext is issued
from the initial state (no context yet), a valid context message arrives and
is processed before the 5-second deadline (it stores the context and clears
the error), yet when the timeout fires it still reports the TimeoutError,
because its callback tests the null snapshot captured at request time instead
of the current state — the claim requires that no error be reported in this
execution. -/
theorem c5_stale_timeout_reports_error :
    (handleDashMessage parseFixture (fetchChatwootData initialDState).1
        (JsValue.vobj ctxObj)).error = none ∧
    (handleDashMessage parseFixture (fetchChatwootData initialDState).1
        (JsValue.vobj ctxObj)).chatwootData = JsValue.vobj ctxObj ∧
    (chatwootTimeoutFire (fetchChatwootData initialDState).2
        (handleDashMessage parseFixture (fetchChatwootData initialDState).1
          (JsValue.vobj ctxObj))).error = some dashTimeoutMsg := by
  refine ⟨rfl, rfl, rfl⟩

def apiCustEmpty : String → Except ApiErr (List WooCommerceCustomer) :=
  fun _ => Except.ok []

def apiCustFail : String → Except ApiErr (List WooCommerceCustomer) :=
  fun _ => Except.error (ApiErr.http 500 "Internal Server Error")

def custSeven : WooCommerceCustomer :=
  { id := 7, email := "a@b.com", first_name := "Alice", last_name := "B" }

def apiCustSeven : String → Except ApiErr (List WooCommerceCustomer) :=
  fun _ => Except.ok [custSeven]

def apiOrdersEmpty : Int → Except ApiErr (List WooCommerceOrder) :=
  fun _ => Except.ok []

def apiOrdersFail : Int → Except ApiErr (List WooCommerceOrder) :=
  fun _ => Except.error ApiErr.other

/-- C6: if any of the three credentials is absent from localStorage, both the
detail resolution (searchWooCommerceData) and the paginated search
(fetchUsers) throw the configuration error before touching the network: the
caught exception is configMissing and the list of issued requests is empty. -/
theorem c6_config_missing_no_network (creds : Creds)
    (apiCustomers : String → Except ApiErr (List WooCommerceCustomer))
    (apiOrders : Int → Except ApiErr (List WooCommerceOrder))
    (apiSearch : SearchRequest → Except ApiErr (List WooCommerceUser))
    (email : String) (pageClosure : Nat) (sd : DState) (su : UState)
    (h : creds.url = none ∨ creds.key = none ∨ creds.secret = none) :
    (searchWooCommerceData creds apiCustomers apiOrders email sd).thrown =
        some Thrown.configMissing ∧
    (searchWooCommerceData creds apiCustomers apiOrders email sd).requests = [] ∧
    (fetchUsers creds apiSearch email pageClosure su).thrown = some Thrown.configMissing ∧
    (fetchUsers creds apiSearch email pageClosure su).requests = [] := by
  have hok : creds.ok = false := by
    rcases h with h | h | h <;> simp [Creds.ok, h, strTruthy]
  refine ⟨?_, ?_, ?_, ?_⟩ <;> simp [searchWooCommerceData, fetchUsers, hok]

/-- C6 witness: with the base URL absent (and the other two credentials
present), both resolution paths report the missing configuration and issue no
request. -/
theorem c6_config_missing_witness :
    (searchWooCommerceData credsNoUrl apiCustSeven apiOrdersEmpty "a@b.com"
        initialDState).thrown = some Thrown.configMissing ∧
    (searchWooCommerceData credsNoUrl apiCustSeven apiOrdersEmpty "a@b.com"
        initialDState).requests = [] ∧
    (fetchUsers credsNoUrl apiOneUser "a@b.com" 1 initialUState).thrown =
        some Thrown.configMissing ∧
    (fetchUsers credsNoUrl apiOneUser "a@b.com" 1 initialUState).requests = [] :=
  c6_config_missing_no_network credsNoUrl apiCustSeven apiOrdersEmpty apiOneUser
    "a@b.com" 1 initialDState initialUState (Or.inl rfl)

/-- C7: in detail resolution with credentials present, a failure of either
request aborts the remaining steps and surfaces exactly one SearchFailed
message.  If the customer request fails, the orders request is never issued
and the displayed customer and orders are unchanged; if the customer request
succeeds with at least one match and the orders request fails, no further
request is issued, the orders list is left unchanged (setOrders is skipped),
and the searchError message is set — the failure is signalled, never silent. -/
theorem c7_detail_failure_aborts (creds : Creds)
    (apiCustomers : String → Except ApiErr (List WooCommerceCustomer))
    (apiOrders : Int → Except ApiErr (List WooCommerceOrder))
    (email : String) (s : DState)
    (hcreds : creds.ok = true) :
    (∀ e, apiCustomers email = Except.error e →
      (searchWooCommerceData creds apiCustomers apiOrders email s).state.searchError =
          some dashSearchFailedMsg ∧
      (searchWooCommerceData creds apiCustomers apiOrders email s).requests =
          [DashRequest.customers email] ∧
      (searchWooCommerceData creds apiCustomers apiOrders email s).state.customer =
          s.customer ∧
      (searchWooCommerceData creds apiCustomers apiOrders email s).state.orders =
          s.orders) ∧
    (∀ c rest e, apiCustomers email = Except.ok (c :: rest) →
        apiOrders c.id = Except.error e →
      (searchWooCommerceData creds apiCustomers apiOrders email s).state.searchError =
          some dashSearchFailedMsg ∧
      (searchWooCommerceData creds apiCustomers apiOrders email s).requests =
          [DashRequest.customers email, DashRequest.orders c.id] ∧
      (searchWooCommerceData creds apiCustomers apiOrders email s).state.orders =
          s.orders) := by
  constructor
  · intro e he
    refine ⟨?_, ?_, ?_, ?_⟩ <;> simp [searchWooCommerceData, hcreds, he]
  · intro c rest e hc ho
    refine ⟨?_, ?_, ?_⟩ <;> simp [searchWooCommerceData, hcreds, hc, ho]

/-- C7 witness: concrete run in which the customer request succeeds with
customer id 7 and the orders request fails; the SearchFailed message is set,
both requests (and only those) were issued, and the orders list is unchanged. -/
theorem c7_detail_failure_witness :
    (searchWooCommerceData credsAll apiCustSeven apiOrdersFail "a@b.com"
        initialDState).state.searchError = some dashSearchFailedMsg ∧
    (searchWooCommerceData credsAll apiCustSeven apiOrdersFail "a@b.com"
        initialDState).requests =
      [DashRequest.customers "a@b.com", DashRequest.orders (7 : Int)] ∧
    (searchWooCommerceData credsAll apiCustSeven apiOrdersFail "a@b.com"
        initialDState).state.orders = initialDState.orders :=
  (c7_detail_failure_aborts credsAll apiCustSeven apiOrdersFail "a@b.com"
    initialDState (by decide)).2 custSeven [] ApiErr.other rfl rfl

/-- C8: round-trip equivalence of the two accepted payload shapes.  For any
parse oracle, if the string payload parses to the structured object o, then
handling the string message yields exactly the same component state as
handling o delivered directly as an object, in both the Dashboard and the
UserSearch message handlers. -/
theorem c8_string_object_roundtrip (parse : String → Option JsValue)
    (str : String) (o : ChatwootData) (sd : DState) (su : UState)
    (h : parse str = some (JsValue.vobj o)) :
    handleDashMessage parse sd (JsValue.vstr str) =
      handleDashMessage parse sd (JsValue.vobj o) ∧
    handleUserMessage parse su (JsValue.vstr str) =
      handleUserMessage parse su (JsValue.vobj o) := by
  constructor <;>
    simp [handleDashMessage, handleUserMessage, h, JsValue.typeofIsObject]

/-- C8 witness: the fixture JSON string parses to the fixture context object,
and handling the string equals handling the object in both components. -/
theorem c8_string_object_roundtrip_witness :
    handleDashMessage parseFixture initialDState (JsValue.vstr jsonCtxString) =
      handleDashMessage parseFixture initialDState (JsValue.vobj ctxObj) ∧
    handleUserMessage parseFixture initialUState (JsValue.vstr jsonCtxString) =
      handleUserMessage parseFixture initialUState (JsValue.vobj ctxObj) :=
  c8_string_object_roundtrip parseFixture jsonCtxString ctxObj
    initialDState initialUState (by decide)

/-- C9: a fetch that ends in an error never erases accumulated results.  For
any state of the search view, if fetchUsers ends with a caught exception
(missing configuration, an HTTP error response, or any other failure — no
usable page), the resulting state reports the corresponding error message and
its accumulated users list is exactly the previous one. -/
theorem c9_errors_preserve_results (creds : Creds)
    (api : SearchRequest → Except ApiErr (List WooCommerceUser))
    (email : String) (pageClosure : Nat) (s : UState) (t : Thrown)
    (h : (fetchUsers creds api email pageClosure s).thrown = some t) :
    (fetchUsers creds api email pageClosure s).state.users = s.users ∧
    (fetchUsers creds api email pageClosure s).state.error = some (userCatchMsg t) ∧
    (fetchUsers creds api email pageClosure s).state.hasMore = s.hasMore := by
  cases hok : creds.ok with
  | false =>
    simp only [fetchUsers, hok] at h ⊢
    simp at h
    subst h
    simp
  | true =>
    cases hapi : api { email := email, per_page := 20, page := pageClosure } with
    | error e =>
      simp only [fetchUsers, hok, hapi] at h ⊢
      simp at h
      subst h
      simp
    | ok data =>
      cases hlen : data.length == 0 with
      | true =>
        simp only [fetchUsers, hok, hapi, hlen] at h
        simp at h
      | false =>
        simp only [fetchUsers, hok, hapi, hlen] at h
        simp at h

/-- C9 witness: a populated state (20 accumulated customers) and an API
returning HTTP 404; after the failing fetch the users list is the same 20
customers, and the status-specific error message is reported. -/
theorem c9_errors_preserve_results_witness :
    (fetchUsers credsAll apiFail404 "u@example.com" 2 populated20).state.users =
        populated20.users ∧
    (fetchUsers credsAll apiFail404 "u@example.com" 2 populated20).state.error =
        some (userCatchMsg (Thrown.api (ApiErr.http 404 "Not Found"))) ∧
    (fetchUsers credsAll apiFail404 "u@example.com" 2 populated20).state.hasMore =
        populated20.hasMore :=
  c9_errors_preserve_results credsAll apiFail404 "u@example.com" 2 populated20
    (Thrown.api (ApiErr.http 404 "Not Found")) rfl

/-- C10: a null payload (or the string "null", which parses to null) passes
the typeof-object shape check: neither handler signals a parse or format
error, and the stored context is replaced wholesale by null, erasing a
previously received context.  The Dashboard handler clears its error flag;
the UserSearch handler leaves every field except the stored context
untouched.  Handling the string "null" behaves identically. -/
theorem c10_null_payload_accepted (parse : String → Option JsValue)
    (sd : DState) (su : UState) (od ou : ChatwootData)
    (_hd : sd.chatwootData = JsValue.vobj od)
    (_hu : su.chatwootData = JsValue.vobj ou)
    (hparse : parse "null" = some JsValue.vnull) :
    handleDashMessage parse sd JsValue.vnull =
      { sd with chatwootData := JsValue.vnull, error := none, isLoading := false } ∧
    handleUserMessage parse su JsValue.vnull = { su with chatwootData := JsValue.vnull } ∧
    handleDashMessage parse sd (JsValue.vstr "null") =
      handleDashMessage parse sd JsValue.vnull ∧
    handleUserMessage parse su (JsValue.vstr "null") =
      handleUserMessage parse su JsValue.vnull := by
  refine ⟨rfl, rfl, ?_, ?_⟩ <;>
    simp [handleDashMessage, handleUserMessage, hparse, JsValue.typeofIsObject]

/-- C10 witness: both components hold a previously received context object;
delivering null (directly or as the string "null") replaces it with null and
reports no error. -/
theorem c10_null_payload_witness :
    handleDashMessage parseFixture { initialDState with chatwootData := JsValue.vobj ctxObj }
        JsValue.vnull =
      { initialDState with chatwootData := JsValue.vnull, error := none, isLoading := false } ∧
    handleUserMessage parseFixture { initialUState with chatwootData := JsValue.vobj ctxObj }
        JsValue.vnull =
      { initialUState with chatwootData := JsValue.vnull } ∧
    handleDashMessage parseFixture { initialDState with chatwootData := JsValue.vobj ctxObj }
        (JsValue.vstr "null") =
      handleDashMessage parseFixture { initialDState with chatwootData := JsValue.vobj ctxObj }
        JsValue.vnull ∧
    handleUserMessage parseFixture { initialUState with chatwootData := JsValue.vobj ctxObj }
        (JsValue.vstr "null") =
      handleUserMessage parseFixture { initialUState with chatwootData := JsValue.vobj ctxObj }
        JsValue.vnull :=
  c10_null_payload_accepted parseFixture
    { initialDState with chatwootData := JsValue.vobj ctxObj }
    { initialUState with chatwootData := JsValue.vobj ctxObj }
    ctxObj ctxObj rfl rfl (by decide)

/-- Merging one internally-duplicate-free page coincides with first-arrival
de-duplication of that page against the accumulator. -/
theorem mergeUsers_eq_dedupAppend (p : List WooCommerceUser) :
    ∀ acc : List WooCommerceUser, (p.map WooCommerceUser.id).Nodup →
      mergeUsers acc p = dedupAppend acc p := by
  induction p with
  | nil =>
    intro acc _
    simp [mergeUsers, dedupAppend]
  | cons u us ih =>
    intro acc h
    simp only [List.map_cons, List.nodup_cons] at h
    obtain ⟨hu, hus⟩ := h
    cases hc : acc.any (fun e => e.id == u.id) with
    | true =>
      have : mergeUsers acc (u :: us) = mergeUsers acc us := by
        simp [mergeUsers, hc]
      rw [this, dedupAppend, hc, if_pos rfl]
      exact ih acc hus
    | false =>
      have hfilter : us.filter (fun x => ! acc.any (fun e => e.id == x.id)) =
          us.filter (fun x => ! (acc ++ [u]).any (fun e => e.id == x.id)) := by
        apply List.filter_congr
        intro x hx
        have hne : ¬ (u.id = x.id) := by
          intro hcontra
          exact hu (hcontra ▸ List.mem_map_of_mem WooCommerceUser.id hx)
        simp [List.any_append, hne]
      have hstep : mergeUsers acc (u :: us) = mergeUsers (acc ++ [u]) us := by
        simp only [mergeUsers, List.filter_cons, hc, Bool.not_false, if_pos]
        rw [hfilter]
        simp
      rw [hstep, dedupAppend, hc]
      simp only [Bool.false_eq_true, if_false]
      exact ih (acc ++ [u]) hus

/-- Processing a concatenated stream with dedupAppend factors into two stages. -/
theorem dedupAppend_append (l1 l2 : List WooCommerceUser) :
    ∀ acc, dedupAppend acc (l1 ++ l2) = dedupAppend (dedupAppend acc l1) l2 := by
  induction l1 with
  | nil =>
    intro acc
    simp [dedupAppend]
  | cons u us ih =>
    intro acc
    simp only [List.cons_append, dedupAppend]
    cases hc : acc.any (fun e => e.id == u.id) <;> simp [ih]

/-- First-arrival de-duplication preserves the no-duplicate-ids invariant. -/
theorem dedupAppend_nodup (l : List WooCommerceUser) :
    ∀ acc : List WooCommerceUser, ((acc.map WooCommerceUser.id).Nodup) →
      (((dedupAppend acc l).map WooCommerceUser.id).Nodup) := by
  induction l with
  | nil =>
    intro acc h
    simpa [dedupAppend] using h
  | cons u us ih =>
    intro acc h
    rw [dedupAppend]
    cases hc : acc.any (fun e => e.id == u.id) with
    | true =>
      rw [if_pos rfl]
      exact ih acc h
    | false =>
      simp only [Bool.false_eq_true, if_false]
      apply ih
      have hno : ∀ x ∈ acc, ¬ x.id = u.id := by
        intro x hx hxid
        have : acc.any (fun e => e.id == u.id) = true :=
          List.any_eq_true.mpr ⟨x, hx, by simp [hxid]⟩
        rw [hc] at this
        exact Bool.false_ne_true this
      rw [List.map_append]
      simpa [List.nodup_append] using ⟨h, hno⟩

/-- C3 counterexample: the merge filters an incoming page only against the
previously accumulated list, not against earlier elements of the same page, so
a single page carrying two entries with the same id 1 (as the claim permits —
each page is an arbitrary list from the API), merged into the empty
accumulator, yields an accumulated list whose ids are [1, 1]. -/
theorem c3_counterexample :
    ¬ ((([[mkUser 1,
           { id := 1, email := "dup@e.f", username := "dup", first_name := "D",
             last_name := "Up" }]].foldl mergeUsers []).map
          WooCommerceUser.id).Nodup) := by
  decide

/-- C3 (amended): for every sequence of result pages merged into the
accumulator in which each individual page contains no two entries with the
same id, the accumulated list equals the first-arrival de-duplication of the
concatenated pages (so each retained entry is the first arrival of its id and
insertion order is arrival order), and it never contains two entries with the
same id. -/
theorem c3_accumulator_dedup_amended (pages : List (List WooCommerceUser))
    (h : ∀ p ∈ pages, (p.map WooCommerceUser.id).Nodup) :
    pages.foldl mergeUsers [] = dedupAppend [] pages.flatten ∧
    (((pages.foldl mergeUsers []).map WooCommerceUser.id).Nodup) := by
  have key : ∀ (ps : List (List WooCommerceUser)) (acc : List WooCommerceUser),
      (∀ p ∈ ps, (p.map WooCommerceUser.id).Nodup) →
      ps.foldl mergeUsers acc = dedupAppend acc ps.flatten := by
    intro ps
    induction ps with
    | nil =>
      intro acc _
      simp [dedupAppend]
    | cons p ps ih =>
      intro acc hh
      have h1 : (p.map WooCommerceUser.id).Nodup := hh p (List.mem_cons_self _ _)
      have h2 : ∀ q ∈ ps, (q.map WooCommerceUser.id).Nodup :=
        fun q hq => hh q (List.mem_cons_of_mem _ hq)
      calc (p :: ps).foldl mergeUsers acc
          = ps.foldl mergeUsers (mergeUsers acc p) := by rw [List.foldl_cons]
        _ = dedupAppend (mergeUsers acc p) ps.flatten := ih (mergeUsers acc p) h2
        _ = dedupAppend (dedupAppend acc p) ps.flatten := by
              rw [mergeUsers_eq_dedupAppend p acc h1]
        _ = dedupAppend acc (p ++ ps.flatten) := by rw [dedupAppend_append]
        _ = dedupAppend acc (p :: ps).flatten := by rw [List.flatten_cons]
  have hfold := key pages [] h
  refine ⟨hfold, ?_⟩
  rw [hfold]
  exact dedupAppend_nodup pages.flatten [] (by simp)

/-- C3 witness: two internally duplicate-free pages overlapping in the
customer with id 2; the accumulator is the first-arrival de-duplication of
their concatenation and its ids [1, 2, 3] contain no duplicate. -/
theorem c3_accumulator_dedup_witness :
    [[mkUser 1, mkUser 2], [mkUser 2, mkUser 3]].foldl mergeUsers [] =
      dedupAppend [] [[mkUser 1, mkUser 2], [mkUser 2, mkUser 3]].flatten ∧
    ((([[mkUser 1, mkUser 2], [mkUser 2, mkUser 3]].foldl mergeUsers []).map
        WooCommerceUser.id).Nodup) :=
  c3_accumulator_dedup_amended [[mkUser 1, mkUser 2], [mkUser 2, mkUser 3]] (by decide)
